import Mathlib

/-!
Shallow embedding of `src/GDP/gdp_model.py` (class `GDPModel`).

Numeric values are modelled as rationals (`Rat`): the Python code computes with
IEEE floats, but every claim under scrutiny is about the exact arithmetic the
code performs (sums, differences, quotients), so `Rat` is the faithful exact
semantics and the floating-point tolerances mentioned by the spec are subsumed
by exact equality.

Sequences (numpy 1-D arrays / pandas Series columns) are modelled as
`List Rat`.  numpy elementwise binary arithmetic on 1-D arrays, including its
broadcasting of length-1 operands, is modelled by `npBinop`.  pandas
`Series.pct_change`, `idxmax`, `idxmin`, `mean`, `max`, `min` are modelled by
`pct_change`, `idxmax`, `idxmin`, `seriesMean`, `seriesMax`, `seriesMin`.

The numpy global random generator, seeded by `np.random.seed(42)` at the top of
`generate_sample_data`, is modelled by an abstract stream `std : Nat → Rat` of
the standard-normal draws the seeded Mersenne twister emits (the k-th call
`np.random.normal(0, s)` evaluates to `s * std k`); the stream is a parameter,
and determinism of generation is the statement that the result depends only on
that stream and the arguments, never on the generator state before the call.
-/

namespace GDPModel

/-- One row of the `pandas.DataFrame` built by `generate_sample_data`:
columns Year, Consumption, Investment, Government_Spending, Exports, Imports,
GDP, Net_Exports. -/
structure PeriodRecord where
  year : Int
  consumption : Rat
  investment : Rat
  government_spending : Rat
  exports : Rat
  imports : Rat
  gdp : Rat
  net_exports : Rat
deriving Repr, DecidableEq, Inhabited

/-- State of a `GDPModel` object: `__init__` sets `self.data = None` and
`self.gdp_values = None`.  `data`, when present, is the generated table. -/
structure GDPModelState where
  data : Option (List PeriodRecord)
  gdp_values : Option (List Rat)
deriving Repr, DecidableEq, Inhabited

/-- `GDPModel.calculate_gdp` on scalar inputs (lines 54-56):
`net_exports = exports - imports; gdp = consumption + investment +
government_spending + net_exports`. -/
def calculate_gdp (consumption investment government_spending exports imports : Rat) : Rat :=
  let net_exports := exports - imports
  consumption + investment + government_spending + net_exports

/-- `calculate_gdp` as the method is written on the object: its body reads and
writes no attribute of `self`, so the state passes through untouched. -/
def calculate_gdp_method (s : GDPModelState)
    (consumption investment government_spending exports imports : Rat) :
    GDPModelState × Rat :=
  (s, calculate_gdp consumption investment government_spending exports imports)

/-- Result length of a numpy elementwise binary operation on 1-D arrays of
lengths `a` and `b`: equal lengths operate positionally; a length-1 operand is
broadcast to the other length; anything else raises
`ValueError: operands could not be broadcast together`. -/
def npBroadcastLen (a b : Nat) : Option Nat :=
  if a = b then some a else if a = 1 then some b else if b = 1 then some a else none

/-- Element of a (possibly broadcast) 1-D array at position `i`: a length-1
array repeats its single element. -/
def npGet (xs : List Rat) (i : Nat) : Rat :=
  if xs.length = 1 then xs.getD 0 0 else xs.getD i 0

/-- Message of the numpy error raised on non-broadcastable operand shapes. -/
def broadcastMsg : String := "operands could not be broadcast together"

/-- numpy elementwise binary arithmetic on 1-D arrays with broadcasting. -/
def npBinop (f : Rat → Rat → Rat) (xs ys : List Rat) : Except String (List Rat) :=
  match npBroadcastLen xs.length ys.length with
  | none => Except.error broadcastMsg
  | some n => Except.ok ((List.range n).map fun i => f (npGet xs i) (npGet ys i))

/-- `GDPModel.calculate_gdp` on 1-D array inputs, each `+`/`-` being the numpy
elementwise operation: first `net_exports = exports - imports`, then
`gdp = consumption + investment + government_spending + net_exports`
(left associated). -/
def calculate_gdp_arr (consumption investment government_spending exports imp : List Rat) :
    Except String (List Rat) :=
  match npBinop (fun a b => a - b) exports imp with
  | Except.error e => Except.error e
  | Except.ok net_exports =>
    match npBinop (fun a b => a + b) consumption investment with
    | Except.error e => Except.error e
    | Except.ok t1 =>
      match npBinop (fun a b => a + b) t1 government_spending with
      | Except.error e => Except.error e
      | Except.ok t2 => npBinop (fun a b => a + b) t2 net_exports

/-- pandas `Series.pct_change` on a column: position 0 is NaN (modelled
`none`), position `i ≥ 1` is `xs[i] / xs[i-1] - 1`. -/
def pct_change (xs : List Rat) : List (Option Rat) :=
  (List.range xs.length).map fun i =>
    if i = 0 then none else some (xs.getD i 0 / xs.getD (i - 1) 0 - 1)

/-- `self.data[GDP].pct_change() * 100` (lines 175 and 252): the growth-rate
series in percent. -/
def growthRate (xs : List Rat) : List (Option Rat) :=
  (pct_change xs).map (Option.map fun r => r * 100)

/-- The slice `growth_rate[1:]`: the first (NaN) entry is dropped and the
remaining entries are the plain numbers `(xs[i]/xs[i-1] - 1) * 100` for
`i = 1 .. n-1`; position `j` of the slice carries original label `j+1`. -/
def gtailOf (xs : List Rat) : List Rat :=
  ((growthRate xs).drop 1).map fun o => o.getD 0

/-- pandas `Series.max()`: maximum of the column, NaN (`none`) when empty. -/
def seriesMax {α : Type} [LinearOrder α] : List α → Option α
  | [] => none
  | x :: xs => some (xs.foldl max x)

/-- pandas `Series.min()`: minimum of the column, NaN (`none`) when empty. -/
def seriesMin {α : Type} [LinearOrder α] : List α → Option α
  | [] => none
  | x :: xs => some (xs.foldl min x)

/-- pandas `Series.mean()`: sum divided by length, NaN (`none`) when empty. -/
def seriesMean (xs : List Rat) : Option Rat :=
  if xs.length = 0 then none else some (xs.sum / (xs.length : Rat))

/-- Position of the first occurrence of the maximum of `x :: l`: when some
later element strictly exceeds `x`, it is one past the first argmax of the
tail, else position 0. -/
def argmax (x : Rat) : List Rat → Nat
  | [] => 0
  | y :: l => if x < (y :: l).getD (argmax y l) 0 then argmax y l + 1 else 0

/-- Position of the first occurrence of the minimum of `x :: l`. -/
def argmin (x : Rat) : List Rat → Nat
  | [] => 0
  | y :: l => if (y :: l).getD (argmin y l) 0 < x then argmin y l + 1 else 0

/-- pandas `Series.idxmax()`: position of the first occurrence of the maximum;
raises `ValueError: attempt to get argmax of an empty sequence` on an empty
series (modelled by `none`). -/
def idxmax : List Rat → Option Nat
  | [] => none
  | x :: xs => some (argmax x xs)

/-- pandas `Series.idxmin()`: position of the first occurrence of the minimum;
`none` on an empty series. -/
def idxmin : List Rat → Option Nat
  | [] => none
  | x :: xs => some (argmin x xs)

/-- Consumption column (line 82): `base_consumption + i*200 + np.random.normal(0, 100)`
for `i in range(years)`; the draws are the first `years` values of the seeded
stream, scaled by 100. -/
def consumptionCol (std : Nat → Rat) (years : Nat) : List Rat :=
  (List.range years).map fun (i : Nat) => 5000 + (i : Rat) * 200 + 100 * std i

/-- Investment column (line 83): `base_investment + i*80 + np.random.normal(0, 50)`;
its draws follow the consumption draws in the stream. -/
def investmentCol (std : Nat → Rat) (years : Nat) : List Rat :=
  (List.range years).map fun (i : Nat) => 1500 + (i : Rat) * 80 + 50 * std (years + i)

/-- Government_Spending column (line 84): `base_gov_spending + i*100 + np.random.normal(0, 60)`. -/
def governmentSpendingCol (std : Nat → Rat) (years : Nat) : List Rat :=
  (List.range years).map fun (i : Nat) => 2000 + (i : Rat) * 100 + 60 * std (2 * years + i)

/-- Exports column (line 85): `base_exports + i*90 + np.random.normal(0, 70)`. -/
def exportsCol (std : Nat → Rat) (years : Nat) : List Rat :=
  (List.range years).map fun (i : Nat) => 1800 + (i : Rat) * 90 + 70 * std (3 * years + i)

/-- Imports column (line 86): `base_imports + i*85 + np.random.normal(0, 65)`. -/
def importsCol (std : Nat → Rat) (years : Nat) : List Rat :=
  (List.range years).map fun (i : Nat) => 1600 + (i : Rat) * 85 + 65 * std (4 * years + i)

/-- GDP column (lines 92-98): `self.calculate_gdp` applied to the five columns;
pandas arithmetic on identically indexed, equal-length Series is elementwise,
so row `i` of the result is `calculate_gdp` of row `i` of each column. -/
def gdpCol (std : Nat → Rat) (years : Nat) : List Rat :=
  (List.range years).map fun i =>
    calculate_gdp ((consumptionCol std years).getD i 0) ((investmentCol std years).getD i 0)
      ((governmentSpendingCol std years).getD i 0) ((exportsCol std years).getD i 0)
      ((importsCol std years).getD i 0)

/-- Net_Exports column (line 100): `self.data[Exports] - self.data[Imports]`,
elementwise on the equal-length columns. -/
def netExportsCol (std : Nat → Rat) (years : Nat) : List Rat :=
  (List.range years).map fun i =>
    (exportsCol std years).getD i 0 - (importsCol std years).getD i 0

/-- The table `generate_sample_data` builds: Year is
`list(range(start_year, start_year + years))` (line 71), the five component
columns are as above, and GDP / Net_Exports are attached (lines 92-100).
`std` is the standard-normal stream of the generator right after
`np.random.seed(42)`. -/
def generate_sample_data (std : Nat → Rat) (years : Nat) (start_year : Int) :
    List PeriodRecord :=
  (List.range years).map fun (i : Nat) =>
    { year := start_year + (i : Int)
      consumption := (consumptionCol std years).getD i 0
      investment := (investmentCol std years).getD i 0
      government_spending := (governmentSpendingCol std years).getD i 0
      exports := (exportsCol std years).getD i 0
      imports := (importsCol std years).getD i 0
      gdp := (gdpCol std years).getD i 0
      net_exports := (netExportsCol std years).getD i 0 }

/-- State of numpy's global random generator: the stream of standard-normal
values it will emit and the number already consumed. -/
structure NpRandomState where
  stream : Nat → Rat
  pos : Nat

/-- `GDPModel.generate_sample_data` as the method executes (lines 58-102):
`np.random.seed(42)` first replaces the generator state by the fixed seed-42
state (stream `mt42`, position 0); generation then consumes `5 * years` draws
and stores the table in `self.data` (`self.gdp_values` is untouched). -/
def generate_sample_data_method (mt42 : Nat → Rat) (s : GDPModelState) (_rng : NpRandomState)
    (years : Nat) (start_year : Int) :
    GDPModelState × NpRandomState × List PeriodRecord :=
  let rngSeeded : NpRandomState := ⟨mt42, 0⟩
  let tbl := generate_sample_data rngSeeded.stream years start_year
  ({ s with data := some tbl }, { rngSeeded with pos := 5 * years }, tbl)

/-- Message of the guard `if self.data is None: raise ValueError(...)` present
at the top of every plotting method and of `print_summary`. -/
def noDataMsg : String := "no data: call generate_sample_data first"

/-- Message of the pandas error raised by `idxmax` / `idxmin` on an empty
series. -/
def emptyArgmaxMsg : String := "attempt to get argmax of an empty sequence"

/-- The values `print_summary` (lines 237-260) prints. -/
structure Summary where
  year_min : Int
  year_max : Int
  gdp_mean : Rat
  gdp_max : Rat
  max_year : Int
  gdp_min : Rat
  min_year : Int
  growth_mean : Rat
  growth_max : Rat
  max_growth_year : Int
deriving Repr, DecidableEq

/-- The values printed by a successfully completing `print_summary` run, as
functions of the table and of the positions `kmax`, `kmin`, `kg` returned by
the three argmax/argmin calls: year range and GDP mean (lines 247-248), GDP
max/min with their years (lines 249-250), and the growth aggregates over the
slice `growth_rate[1:]` (lines 252-254) — the period reported for slice
position `kg` is `Year` at original label `kg + 1`. -/
def mkSummary (t : List PeriodRecord) (kmax kmin kg : Nat) : Summary :=
  { year_min := (seriesMin (t.map PeriodRecord.year)).getD 0
    year_max := (seriesMax (t.map PeriodRecord.year)).getD 0
    gdp_mean := (seriesMean (t.map PeriodRecord.gdp)).getD 0
    gdp_max := (seriesMax (t.map PeriodRecord.gdp)).getD 0
    max_year := (t.map PeriodRecord.year).getD kmax 0
    gdp_min := (seriesMin (t.map PeriodRecord.gdp)).getD 0
    min_year := (t.map PeriodRecord.year).getD kmin 0
    growth_mean := (seriesMean (gtailOf (t.map PeriodRecord.gdp))).getD 0
    growth_max := (seriesMax (gtailOf (t.map PeriodRecord.gdp))).getD 0
    max_growth_year := (t.map PeriodRecord.year).getD (kg + 1) 0 }

/-- `GDPModel.print_summary` as a function of the stored data: raises the
no-data guard when `self.data is None`; otherwise `idxmax` of the GDP column
runs first (line 249, raising on an empty table), then `idxmin` (line 250),
then `idxmax` of the slice `growth_rate[1:]` (line 254, raising when the slice
is empty, i.e. on a one-row table); when all succeed the printed values are
`mkSummary`. -/
def print_summary (data : Option (List PeriodRecord)) : Except String Summary :=
  match data with
  | none => Except.error noDataMsg
  | some t =>
    match idxmax (t.map PeriodRecord.gdp) with
    | none => Except.error emptyArgmaxMsg
    | some kmax =>
      match idxmin (t.map PeriodRecord.gdp) with
      | none => Except.error emptyArgmaxMsg
      | some kmin =>
        match idxmax (gtailOf (t.map PeriodRecord.gdp)) with
        | none => Except.error emptyArgmaxMsg
        | some kg => Except.ok (mkSummary t kmax kmin kg)

/-- Outcome of a consumer method: the raised exception if any, the object
state afterwards, and the image files written. -/
structure MethodResult where
  err : Option String
  state : GDPModelState
  files : List String
deriving Repr, DecidableEq

/-- `GDPModel.plot_gdp_trend` (lines 104-131): guard on `self.data is None`,
then render and save `save_path`; no attribute of `self` is assigned. -/
def plot_gdp_trend (s : GDPModelState) (save_path : String) : MethodResult :=
  match s.data with
  | none => ⟨some noDataMsg, s, []⟩
  | some _ => ⟨none, s, [save_path]⟩

/-- `GDPModel.plot_gdp_components` (lines 133-165): same guard, then render
the stacked bars and save `save_path`. -/
def plot_gdp_components (s : GDPModelState) (save_path : String) : MethodResult :=
  match s.data with
  | none => ⟨some noDataMsg, s, []⟩
  | some _ => ⟨none, s, [save_path]⟩

/-- `GDPModel.plot_growth_rate` (lines 167-198): same guard, then compute
`growth_rate = self.data[GDP].pct_change() * 100` (line 175), render the bars
over `growth_rate[1:]` and save `save_path`. -/
def plot_growth_rate (s : GDPModelState) (save_path : String) : MethodResult :=
  match s.data with
  | none => ⟨some noDataMsg, s, []⟩
  | some t =>
    let growth_rate := growthRate (t.map PeriodRecord.gdp)
    let _bars := growth_rate.drop 1
    ⟨none, s, [save_path]⟩

/-- `GDPModel.plot_all_components_trends` (lines 200-235): same guard, then
render the six subplots and save `save_path`. -/
def plot_all_components_trends (s : GDPModelState) (save_path : String) : MethodResult :=
  match s.data with
  | none => ⟨some noDataMsg, s, []⟩
  | some _ => ⟨none, s, [save_path]⟩

/-- `GDPModel.print_summary` as it acts on the object: it raises or prints,
and assigns no attribute of `self`. -/
def print_summary_method (s : GDPModelState) : Option String × GDPModelState × Option Summary :=
  match print_summary s.data with
  | Except.error e => (some e, s, none)
  | Except.ok sum => (none, s, some sum)

/-! ### Helper lemmas -/

theorem getD_range_map {α : Type} (f : Nat → α) (d : α) {n i : Nat} (h : i < n) :
    ((List.range n).map f).getD i d = f i := by
  rw [List.getD_eq_getElem?_getD, List.getElem?_map, List.getElem?_range h]
  rfl

theorem npGet_eq_getD (xs : List Rat) (i : Nat) (h : i < xs.length) :
    npGet xs i = xs.getD i 0 := by
  by_cases h1 : xs.length = 1
  · have hi : i = 0 := by omega
    subst hi
    simp [npGet, h1]
  · simp [npGet, h1]

theorem npBinop_ok {n : Nat} (f : Rat → Rat → Rat) (xs ys : List Rat)
    (hx : xs.length = n) (hy : ys.length = n) :
    npBinop f xs ys =
      Except.ok ((List.range n).map fun i => f (npGet xs i) (npGet ys i)) := by
  unfold npBinop npBroadcastLen
  rw [hx, hy]
  simp

theorem npBinop_mismatch (f : Rat → Rat → Rat) (xs ys : List Rat)
    (hx : 2 ≤ xs.length) (hy : 2 ≤ ys.length) (hne : xs.length ≠ ys.length) :
    npBinop f xs ys = Except.error broadcastMsg := by
  unfold npBinop npBroadcastLen
  rw [if_neg hne, if_neg (by omega), if_neg (by omega)]

/-- On five equal-length columns `calculate_gdp_arr` succeeds and is the
elementwise formula. -/
theorem calculate_gdp_arr_ok {n : Nat} (c inv g x m : List Rat)
    (hc : c.length = n) (hi : inv.length = n) (hg : g.length = n)
    (hx : x.length = n) (hm : m.length = n) :
    ∃ out, calculate_gdp_arr c inv g x m = Except.ok out ∧ out.length = n ∧
      ∀ j, j < n → out.getD j 0 =
        c.getD j 0 + inv.getD j 0 + g.getD j 0 + (x.getD j 0 - m.getD j 0) := by
  have hnet := npBinop_ok (fun a b => a - b) x m hx hm
  set net := (List.range n).map (fun i => (fun a b => a - b) (npGet x i) (npGet m i))
    with hnetdef
  have hnetlen : net.length = n := by simp [hnetdef]
  have hnetget : ∀ j, j < n → net.getD j 0 = x.getD j 0 - m.getD j 0 := by
    intro j hj
    rw [hnetdef, getD_range_map _ _ hj]
    dsimp only
    rw [npGet_eq_getD x j (by omega), npGet_eq_getD m j (by omega)]
  have h1 := npBinop_ok (fun a b => a + b) c inv hc hi
  set t1 := (List.range n).map (fun i => (fun a b => a + b) (npGet c i) (npGet inv i))
    with ht1def
  have ht1len : t1.length = n := by simp [ht1def]
  have ht1get : ∀ j, j < n → t1.getD j 0 = c.getD j 0 + inv.getD j 0 := by
    intro j hj
    rw [ht1def, getD_range_map _ _ hj]
    dsimp only
    rw [npGet_eq_getD c j (by omega), npGet_eq_getD inv j (by omega)]
  have h2 := npBinop_ok (fun a b => a + b) t1 g ht1len hg
  set t2 := (List.range n).map (fun i => (fun a b => a + b) (npGet t1 i) (npGet g i))
    with ht2def
  have ht2len : t2.length = n := by simp [ht2def]
  have ht2get : ∀ j, j < n → t2.getD j 0 = c.getD j 0 + inv.getD j 0 + g.getD j 0 := by
    intro j hj
    rw [ht2def, getD_range_map _ _ hj]
    dsimp only
    rw [npGet_eq_getD t1 j (by omega), npGet_eq_getD g j (by omega), ht1get j hj]
  have h3 := npBinop_ok (fun a b => a + b) t2 net ht2len hnetlen
  set out := (List.range n).map (fun i => (fun a b => a + b) (npGet t2 i) (npGet net i))
    with houtdef
  have houtlen : out.length = n := by simp [houtdef]
  refine ⟨out, ?_, houtlen, ?_⟩
  · simp only [calculate_gdp_arr, hnet, h1, h2, h3]
  · intro j hj
    rw [houtdef, getD_range_map _ _ hj]
    dsimp only
    rw [npGet_eq_getD t2 j (by omega), npGet_eq_getD net j (by omega), ht2get j hj, hnetget j hj]

theorem growthRate_length (xs : List Rat) : (growthRate xs).length = xs.length := by
  simp [growthRate, pct_change]

theorem growthRate_getD (xs : List Rat) {i : Nat} (h1 : i < xs.length) (h2 : i ≠ 0) :
    (growthRate xs).getD i none =
      some ((xs.getD i 0 / xs.getD (i - 1) 0 - 1) * 100) := by
  unfold growthRate pct_change
  rw [List.map_map, getD_range_map _ _ h1]
  simp [h2]

theorem growthRate_getD_zero (xs : List Rat) :
    (growthRate xs).getD 0 none = none := by
  cases xs with
  | nil => rfl
  | cons a l =>
    unfold growthRate pct_change
    rw [List.map_map, getD_range_map _ _ (by simp)]
    simp

theorem gtailOf_length (xs : List Rat) : (gtailOf xs).length = xs.length - 1 := by
  simp [gtailOf, growthRate, pct_change]

theorem gtailOf_getD (xs : List Rat) {j : Nat} (h : j + 1 < xs.length) :
    (gtailOf xs).getD j 0 = (xs.getD (j + 1) 0 / xs.getD j 0 - 1) * 100 := by
  unfold gtailOf growthRate pct_change
  rw [List.getD_eq_getElem?_getD, List.getElem?_map, List.getElem?_drop, List.map_map,
    List.getElem?_map, List.getElem?_range (by omega : 1 + j < xs.length)]
  have h1 : 1 + j ≠ 0 := by omega
  have h2 : 1 + j - 1 = j := by omega
  simp [h1, h2, Nat.add_comm 1 j]

theorem idxmax_eq_none_iff (xs : List Rat) : idxmax xs = none ↔ xs = [] := by
  cases xs with
  | nil => simp [idxmax]
  | cons x l => simp [idxmax]

theorem idxmin_eq_none_iff (xs : List Rat) : idxmin xs = none ↔ xs = [] := by
  cases xs with
  | nil => simp [idxmin]
  | cons x l => simp [idxmin]

/-- `argmax x l` is an in-range position of the maximum of `x :: l`, and every
strictly earlier position holds a strictly smaller value (first occurrence). -/
theorem argmax_spec (l : List Rat) : ∀ (x : Rat),
    argmax x l < (x :: l).length ∧
      (∀ j, j < (x :: l).length → (x :: l).getD j 0 ≤ (x :: l).getD (argmax x l) 0) ∧
      (∀ j, j < argmax x l → (x :: l).getD j 0 < (x :: l).getD (argmax x l) 0) := by
  induction l with
  | nil =>
    intro x
    refine ⟨by simp [argmax], ?_, by simp [argmax]⟩
    intro j hj
    have hj0 : j = 0 := by simpa [argmax] using hj
    subst hj0
    simp [argmax]
  | cons y l ih =>
    intro x
    obtain ⟨hlen, hmax, hfirst⟩ := ih y
    by_cases hcmp : x < (y :: l).getD (argmax y l) 0
    · have hval : argmax x (y :: l) = argmax y l + 1 := by
        show (if x < (y :: l).getD (argmax y l) 0 then argmax y l + 1 else 0) = argmax y l + 1
        rw [if_pos hcmp]
      rw [hval]
      refine ⟨by simpa using hlen, ?_, ?_⟩
      · intro j hj
        rw [List.getD_cons_succ]
        cases j with
        | zero =>
          rw [List.getD_cons_zero]
          exact le_of_lt hcmp
        | succ j2 =>
          rw [List.getD_cons_succ]
          exact hmax j2 (by simpa using hj)
      · intro j hj
        rw [List.getD_cons_succ]
        cases j with
        | zero =>
          rw [List.getD_cons_zero]
          exact hcmp
        | succ j2 =>
          rw [List.getD_cons_succ]
          exact hfirst j2 (by omega)
    · have hval : argmax x (y :: l) = 0 := by
        show (if x < (y :: l).getD (argmax y l) 0 then argmax y l + 1 else 0) = 0
        rw [if_neg hcmp]
      rw [hval]
      push_neg at hcmp
      refine ⟨by simp, ?_, by omega⟩
      intro j hj
      rw [List.getD_cons_zero]
      cases j with
      | zero => exact le_refl _
      | succ j2 =>
        rw [List.getD_cons_succ]
        exact le_trans (hmax j2 (by simpa using hj)) hcmp

/-- `argmin x l` is an in-range position of the minimum of `x :: l`, and every
strictly earlier position holds a strictly larger value (first occurrence). -/
theorem argmin_spec (l : List Rat) : ∀ (x : Rat),
    argmin x l < (x :: l).length ∧
      (∀ j, j < (x :: l).length → (x :: l).getD (argmin x l) 0 ≤ (x :: l).getD j 0) ∧
      (∀ j, j < argmin x l → (x :: l).getD (argmin x l) 0 < (x :: l).getD j 0) := by
  induction l with
  | nil =>
    intro x
    refine ⟨by simp [argmin], ?_, by simp [argmin]⟩
    intro j hj
    have hj0 : j = 0 := by simpa [argmin] using hj
    subst hj0
    simp [argmin]
  | cons y l ih =>
    intro x
    obtain ⟨hlen, hmin, hfirst⟩ := ih y
    by_cases hcmp : (y :: l).getD (argmin y l) 0 < x
    · have hval : argmin x (y :: l) = argmin y l + 1 := by
        show (if (y :: l).getD (argmin y l) 0 < x then argmin y l + 1 else 0) = argmin y l + 1
        rw [if_pos hcmp]
      rw [hval]
      refine ⟨by simpa using hlen, ?_, ?_⟩
      · intro j hj
        rw [List.getD_cons_succ]
        cases j with
        | zero =>
          rw [List.getD_cons_zero]
          exact le_of_lt hcmp
        | succ j2 =>
          rw [List.getD_cons_succ]
          exact hmin j2 (by simpa using hj)
      · intro j hj
        rw [List.getD_cons_succ]
        cases j with
        | zero =>
          rw [List.getD_cons_zero]
          exact hcmp
        | succ j2 =>
          rw [List.getD_cons_succ]
          exact hfirst j2 (by omega)
    · have hval : argmin x (y :: l) = 0 := by
        show (if (y :: l).getD (argmin y l) 0 < x then argmin y l + 1 else 0) = 0
        rw [if_neg hcmp]
      rw [hval]
      push_neg at hcmp
      refine ⟨by simp, ?_, by omega⟩
      intro j hj
      rw [List.getD_cons_zero]
      cases j with
      | zero => exact le_refl _
      | succ j2 =>
        rw [List.getD_cons_succ]
        exact le_trans hcmp (hmin j2 (by simpa using hj))

/-- `idxmax` returns an in-range position of the maximum and resolves ties to
the first occurrence. -/
theorem idxmax_spec (xs : List Rat) (k : Nat) (h : idxmax xs = some k) :
    k < xs.length ∧ (∀ j, j < xs.length → xs.getD j 0 ≤ xs.getD k 0) ∧
      (∀ j, j < k → xs.getD j 0 < xs.getD k 0) := by
  cases xs with
  | nil => simp [idxmax] at h
  | cons x l =>
    have hk : k = argmax x l := by simpa [idxmax, eq_comm] using h
    subst hk
    exact argmax_spec l x

/-- `idxmin` returns an in-range position of the minimum and resolves ties to
the first occurrence. -/
theorem idxmin_spec (xs : List Rat) (k : Nat) (h : idxmin xs = some k) :
    k < xs.length ∧ (∀ j, j < xs.length → xs.getD k 0 ≤ xs.getD j 0) ∧
      (∀ j, j < k → xs.getD k 0 < xs.getD j 0) := by
  cases xs with
  | nil => simp [idxmin] at h
  | cons x l =>
    have hk : k = argmin x l := by simpa [idxmin, eq_comm] using h
    subst hk
    exact argmin_spec l x

theorem idxmax_isSome (xs : List Rat) (h : xs ≠ []) : ∃ k, idxmax xs = some k := by
  cases hx : idxmax xs with
  | none => exact absurd ((idxmax_eq_none_iff xs).mp hx) h
  | some k => exact ⟨k, rfl⟩

theorem idxmin_isSome (xs : List Rat) (h : xs ≠ []) : ∃ k, idxmin xs = some k := by
  cases hx : idxmin xs with
  | none => exact absurd ((idxmin_eq_none_iff xs).mp hx) h
  | some k => exact ⟨k, rfl⟩

/-! ### Claims -/

/-- C1: for all numeric inputs, scalar or equal-length sequences applied
elementwise over aligned positions, `calculate_gdp` returns exactly
`c + i + g + (x - m)` with no other transformation; in particular
`calculate_gdp 5000 1500 2000 1800 1600 = 8700`. -/
theorem C1_calculate_gdp_formula (c i g x m : Rat) (cv iv gv xv mv : List Rat) (n : Nat)
    (hc : cv.length = n) (hi : iv.length = n) (hg : gv.length = n)
    (hx : xv.length = n) (hm : mv.length = n) :
    calculate_gdp c i g x m = c + i + g + (x - m) ∧
    (∃ out, calculate_gdp_arr cv iv gv xv mv = Except.ok out ∧ out.length = n ∧
      ∀ j, j < n → out.getD j 0 =
        cv.getD j 0 + iv.getD j 0 + gv.getD j 0 + (xv.getD j 0 - mv.getD j 0)) ∧
    calculate_gdp 5000 1500 2000 1800 1600 = 8700 :=
  ⟨rfl, calculate_gdp_arr_ok cv iv gv xv mv hc hi hg hx hm, by norm_num [calculate_gdp]⟩

/-- Witness for C1 at scalars 1..5, singleton columns and the spec example. -/
theorem C1_calculate_gdp_formula_witness :
    calculate_gdp 1 2 3 4 5 = 1 + 2 + 3 + (4 - 5) ∧
    (∃ out, calculate_gdp_arr [1] [2] [3] [4] [5] = Except.ok out ∧ out.length = 1 ∧
      ∀ j, j < 1 → out.getD j 0 =
        [(1 : Rat)].getD j 0 + [(2 : Rat)].getD j 0 + [(3 : Rat)].getD j 0 +
          ([(4 : Rat)].getD j 0 - [(5 : Rat)].getD j 0)) ∧
    calculate_gdp 5000 1500 2000 1800 1600 = 8700 :=
  C1_calculate_gdp_formula 1 2 3 4 5 [1] [2] [3] [4] [5] 1 rfl rfl rfl rfl rfl

/-- C2: every record of a generated table satisfies the GDP identity exactly
and its NetExports field equals Exports minus Imports, for every stream of
draws and all `years` / `start_year` arguments. -/
theorem C2_generated_table_invariant (std : Nat → Rat) (years : Nat) (start_year : Int)
    (r : PeriodRecord) (hr : r ∈ generate_sample_data std years start_year) :
    r.gdp = r.consumption + r.investment + r.government_spending + (r.exports - r.imports) ∧
    r.net_exports = r.exports - r.imports := by
  unfold generate_sample_data at hr
  obtain ⟨i, hi, rfl⟩ := List.mem_map.mp hr
  rw [List.mem_range] at hi
  constructor
  · show (gdpCol std years).getD i 0 =
      (consumptionCol std years).getD i 0 + (investmentCol std years).getD i 0 +
        (governmentSpendingCol std years).getD i 0 +
        ((exportsCol std years).getD i 0 - (importsCol std years).getD i 0)
    unfold gdpCol
    rw [getD_range_map _ _ hi]
    rfl
  · show (netExportsCol std years).getD i 0 =
      (exportsCol std years).getD i 0 - (importsCol std years).getD i 0
    unfold netExportsCol
    rw [getD_range_map _ _ hi]

/-- The record generated for the first year of a one-year table with all
draws zero. -/
def sampleRecord : PeriodRecord :=
  ⟨2015, 5000, 1500, 2000, 1800, 1600, 8700, 200⟩

/-- Witness for C2 at the one-year table with all draws zero. -/
theorem C2_generated_table_invariant_witness :
    sampleRecord ∈ generate_sample_data (fun _ => 0) 1 2015 ∧
    (sampleRecord.gdp = sampleRecord.consumption + sampleRecord.investment +
        sampleRecord.government_spending + (sampleRecord.exports - sampleRecord.imports) ∧
      sampleRecord.net_exports = sampleRecord.exports - sampleRecord.imports) :=
  have hmem : sampleRecord ∈ generate_sample_data (fun _ => 0) 1 2015 := by
    norm_num [sampleRecord, generate_sample_data, consumptionCol, investmentCol,
      governmentSpendingCol, exportsCol, importsCol, gdpCol, netExportsCol, calculate_gdp,
      List.range_succ]
  ⟨hmem, C2_generated_table_invariant (fun _ => 0) 1 2015 sampleRecord hmem⟩

/-- C3: the growth rate reported for period `i ≥ 1` equals
`(GDP[i] - GDP[i-1]) / GDP[i-1] * 100`, the first period carries no growth
value, and the two-period table with GDP `[100, 110]` yields `[none, 10.0]`. -/
theorem C3_growth_rate_formula (gdp : List Rat) (i : Nat) (h1 : 1 ≤ i) (h2 : i < gdp.length)
    (h0 : gdp.getD (i - 1) 0 ≠ 0) :
    (growthRate gdp).getD i none =
        some ((gdp.getD i 0 - gdp.getD (i - 1) 0) / gdp.getD (i - 1) 0 * 100) ∧
    (growthRate gdp).getD 0 none = none ∧
    growthRate [100, 110] = [none, some 10] := by
  refine ⟨?_, growthRate_getD_zero gdp, by norm_num [growthRate, pct_change, List.range_succ]⟩
  rw [growthRate_getD gdp h2 (by omega)]
  congr 1
  rw [sub_div, div_self h0]

/-- Witness for C3 on the table with GDP values `[100, 110]` at period 1. -/
theorem C3_growth_rate_formula_witness :
    ([100, 110] : List Rat).getD 0 0 ≠ 0 ∧
    ((growthRate [100, 110]).getD 1 none =
        some ((([100, 110] : List Rat).getD 1 0 - ([100, 110] : List Rat).getD (1 - 1) 0) /
          ([100, 110] : List Rat).getD (1 - 1) 0 * 100) ∧
      (growthRate [100, 110]).getD 0 none = none ∧
      growthRate [100, 110] = [none, some 10]) :=
  ⟨by norm_num,
    C3_growth_rate_formula [100, 110] 1 (le_refl 1) (by norm_num) (by norm_num)⟩

/-- C4 counterexample: the sequence inputs exports (length 1) and imports
(length 5) have mismatched lengths, yet `calculate_gdp` does not fail: numpy
broadcasts the length-1 operand and returns a result. -/
theorem C4_broadcast_counterexample :
    ([(10 : Rat)] : List Rat).length ≠ ([1, 2, 3, 4, 5] : List Rat).length ∧
    calculate_gdp_arr [0, 0, 0, 0, 0] [0, 0, 0, 0, 0] [0, 0, 0, 0, 0] [10] [1, 2, 3, 4, 5] =
      Except.ok [9, 8, 7, 6, 5] := by
  constructor
  · norm_num
  · norm_num [calculate_gdp_arr, npBinop, npBroadcastLen, npGet, List.range_succ]

/-- C4 amended: `calculate_gdp` fails with the broadcast (ShapeMismatch) error
when sequence inputs have incompatible lengths, neither equal nor 1 (such as
3 versus 5); length-1 sequences are broadcast without error; and on
equal-length inputs there is no failure mode: all values, negative or zero
included, are accepted verbatim and produce the elementwise result. -/
theorem C4_shape_mismatch_amended :
    (∀ c inv g x m : List Rat, 2 ≤ x.length → 2 ≤ m.length → x.length ≠ m.length →
      calculate_gdp_arr c inv g x m = Except.error broadcastMsg) ∧
    (∀ (c inv g x m : List Rat) (n : Nat), c.length = n → inv.length = n → g.length = n →
      x.length = n → m.length = n →
      ∃ out, calculate_gdp_arr c inv g x m = Except.ok out ∧ out.length = n ∧
        ∀ j, j < n → out.getD j 0 =
          c.getD j 0 + inv.getD j 0 + g.getD j 0 + (x.getD j 0 - m.getD j 0)) := by
  constructor
  · intro c inv g x m hx2 hm2 hne
    unfold calculate_gdp_arr
    rw [npBinop_mismatch _ x m hx2 hm2 hne]
  · intro c inv g x m n hc hi hg hx hm
    exact calculate_gdp_arr_ok c inv g x m hc hi hg hx hm

/-- Witness for C4 amended: length 3 versus length 5 fails with the broadcast
error, and equal-length (here singleton) inputs with the spec example values
succeed. -/
theorem C4_shape_mismatch_amended_witness :
    calculate_gdp_arr [1, 1, 1] [1, 1, 1] [1, 1, 1] [1, 1, 1] [1, 1, 1, 1, 1] =
        Except.error broadcastMsg ∧
    (∃ out, calculate_gdp_arr [5000] [1500] [2000] [1800] [1600] = Except.ok out ∧
      out.length = 1 ∧
      ∀ j, j < 1 → out.getD j 0 =
        [(5000 : Rat)].getD j 0 + [(1500 : Rat)].getD j 0 + [(2000 : Rat)].getD j 0 +
          ([(1800 : Rat)].getD j 0 - [(1600 : Rat)].getD j 0)) :=
  ⟨C4_shape_mismatch_amended.1 [1, 1, 1] [1, 1, 1] [1, 1, 1] [1, 1, 1] [1, 1, 1, 1, 1]
      (by norm_num) (by norm_num) (by norm_num),
    C4_shape_mismatch_amended.2 [5000] [1500] [2000] [1800] [1600] 1 rfl rfl rfl rfl rfl⟩

/-- C5 counterexample: on a table with exactly one record the summary
operation does error, raising the empty-argmax error while computing the
maximum-growth period, contrary to the claim that it does not error. -/
theorem C5_single_record_counterexample :
    print_summary (some [⟨2015, 0, 0, 0, 0, 0, 100, 0⟩]) = Except.error emptyArgmaxMsg :=
  rfl

/-- C5 amended: the explicit no-data guard error fires exactly when stored
data is absent; a zero-record table passes the guard and errors at the GDP
argmax instead; a summary run that completes without error has at least 2
records, and a table with at least 2 records completes without error whenever
every GDP value used as a growth denominator (positions 0 to n-2) is nonzero
(a zero denominator makes the float program divide by zero, a case outside
this exact-arithmetic model); on a one-record table the mean, max and min it
computes and prints equal that record's GDP and the mean growth is undefined
(NaN over an empty slice), but the operation then errors computing the
maximum-growth period instead of reporting the growth fields as absent. -/
theorem C5_empty_table_amended :
    print_summary none = Except.error noDataMsg ∧
    print_summary (some ([] : List PeriodRecord)) = Except.error emptyArgmaxMsg ∧
    (∀ (t : List PeriodRecord) (s : Summary), print_summary (some t) = Except.ok s →
      2 ≤ t.length) ∧
    (∀ t : List PeriodRecord, 2 ≤ t.length →
      (∀ j, j < t.length - 1 → (t.map PeriodRecord.gdp).getD j 0 ≠ 0) →
      ∃ s, print_summary (some t) = Except.ok s) ∧
    (∀ r : PeriodRecord,
      seriesMean [r.gdp] = some r.gdp ∧ seriesMax [r.gdp] = some r.gdp ∧
      seriesMin [r.gdp] = some r.gdp ∧ seriesMean (gtailOf [r.gdp]) = none ∧
      print_summary (some [r]) = Except.error emptyArgmaxMsg) := by
  refine ⟨rfl, rfl, ?_, ?_, ?_⟩
  · intro t s hs
    by_contra hlen
    push_neg at hlen
    cases t with
    | nil =>
      rw [show print_summary (some ([] : List PeriodRecord)) =
        Except.error emptyArgmaxMsg from rfl] at hs
      exact Except.noConfusion hs
    | cons r t2 =>
      cases t2 with
      | nil =>
        rw [show print_summary (some [r]) = Except.error emptyArgmaxMsg from rfl] at hs
        exact Except.noConfusion hs
      | cons r2 t3 => simp at hlen; omega
  · intro t hlen _hnz
    obtain ⟨kmax, hkmax⟩ := idxmax_isSome (t.map PeriodRecord.gdp) (by
      intro hnil
      have hl0 : t.length = 0 := by simpa using congrArg List.length hnil
      omega)
    obtain ⟨kmin, hkmin⟩ := idxmin_isSome (t.map PeriodRecord.gdp) (by
      intro hnil
      have hl0 : t.length = 0 := by simpa using congrArg List.length hnil
      omega)
    obtain ⟨kg, hkg⟩ := idxmax_isSome (gtailOf (t.map PeriodRecord.gdp)) (by
      intro hnil
      have hl1 := congrArg List.length hnil
      rw [gtailOf_length] at hl1
      have hl0 : t.length - 1 = 0 := by simpa using hl1
      omega)
    exact ⟨mkSummary t kmax kmin kg, by simp only [print_summary, hkmax, hkmin, hkg]⟩
  · intro r
    refine ⟨?_, rfl, rfl, rfl, rfl⟩
    simp [seriesMean]

/-- Witness for C5 amended: absent data errors with the guard message, a
two-record table with nonzero GDP values succeeds, and a one-record table
errors at the growth argmax. -/
theorem C5_empty_table_amended_witness :
    print_summary none = Except.error noDataMsg ∧
    (2 : Nat) ≤ ([⟨2015, 0, 0, 0, 0, 0, 100, 0⟩,
      (⟨2016, 0, 0, 0, 0, 0, 110, 0⟩ : PeriodRecord)] : List PeriodRecord).length ∧
    (∃ s, print_summary (some [⟨2015, 0, 0, 0, 0, 0, 100, 0⟩,
        ⟨2016, 0, 0, 0, 0, 0, 110, 0⟩]) = Except.ok s) ∧
    print_summary (some [⟨2015, 0, 0, 0, 0, 0, 100, 0⟩]) = Except.error emptyArgmaxMsg :=
  ⟨C5_empty_table_amended.1,
    by norm_num,
    C5_empty_table_amended.2.2.2.1 [⟨2015, 0, 0, 0, 0, 0, 100, 0⟩,
        ⟨2016, 0, 0, 0, 0, 0, 110, 0⟩] (by norm_num)
      (by
        intro j hj
        simp only [List.length_cons, List.length_nil] at hj
        have hj0 : j = 0 := by omega
        subst hj0
        norm_num),
    (C5_empty_table_amended.2.2.2.2 ⟨2015, 0, 0, 0, 0, 0, 100, 0⟩).2.2.2.2⟩

/-- C6: whenever the summary completes, the reported max, min and max-growth
periods are the years at the first (earliest, in table order) positions
attaining the maximum GDP, minimum GDP and maximum growth rate respectively:
every position holds a value no better, and every strictly earlier position
holds a strictly worse value. -/
theorem C6_tie_first_occurrence (t : List PeriodRecord) (s : Summary)
    (h : print_summary (some t) = Except.ok s) :
    ∃ kmax kmin kg,
      idxmax (t.map PeriodRecord.gdp) = some kmax ∧
      idxmin (t.map PeriodRecord.gdp) = some kmin ∧
      idxmax (gtailOf (t.map PeriodRecord.gdp)) = some kg ∧
      s.max_year = (t.map PeriodRecord.year).getD kmax 0 ∧
      s.min_year = (t.map PeriodRecord.year).getD kmin 0 ∧
      s.max_growth_year = (t.map PeriodRecord.year).getD (kg + 1) 0 ∧
      (∀ j, j < (t.map PeriodRecord.gdp).length →
        (t.map PeriodRecord.gdp).getD j 0 ≤ (t.map PeriodRecord.gdp).getD kmax 0) ∧
      (∀ j, j < kmax →
        (t.map PeriodRecord.gdp).getD j 0 < (t.map PeriodRecord.gdp).getD kmax 0) ∧
      (∀ j, j < (t.map PeriodRecord.gdp).length →
        (t.map PeriodRecord.gdp).getD kmin 0 ≤ (t.map PeriodRecord.gdp).getD j 0) ∧
      (∀ j, j < kmin →
        (t.map PeriodRecord.gdp).getD kmin 0 < (t.map PeriodRecord.gdp).getD j 0) ∧
      (∀ j, j < (gtailOf (t.map PeriodRecord.gdp)).length →
        (gtailOf (t.map PeriodRecord.gdp)).getD j 0 ≤
          (gtailOf (t.map PeriodRecord.gdp)).getD kg 0) ∧
      (∀ j, j < kg →
        (gtailOf (t.map PeriodRecord.gdp)).getD j 0 <
          (gtailOf (t.map PeriodRecord.gdp)).getD kg 0) := by
  simp only [print_summary] at h
  cases hkmax : idxmax (t.map PeriodRecord.gdp) with
  | none =>
    rw [hkmax] at h
    exact Except.noConfusion h
  | some kmax =>
    rw [hkmax] at h
    cases hkmin : idxmin (t.map PeriodRecord.gdp) with
    | none =>
      rw [hkmin] at h
      exact Except.noConfusion h
    | some kmin =>
      rw [hkmin] at h
      cases hkg : idxmax (gtailOf (t.map PeriodRecord.gdp)) with
      | none =>
        rw [hkg] at h
        exact Except.noConfusion h
      | some kg =>
        rw [hkg] at h
        have h3 : Except.ok (mkSummary t kmax kmin kg) = Except.ok s := h
        rw [Except.ok.injEq] at h3
        subst h3
        obtain ⟨_, hmax, hmaxfirst⟩ := idxmax_spec _ kmax hkmax
        obtain ⟨_, hmin, hminfirst⟩ := idxmin_spec _ kmin hkmin
        obtain ⟨_, hg, hgfirst⟩ := idxmax_spec _ kg hkg
        exact ⟨kmax, kmin, kg, rfl, rfl, rfl, rfl, rfl, rfl,
          hmax, hmaxfirst, hmin, hminfirst, hg, hgfirst⟩

/-- Witness for C6 on a concrete two-record table. -/
theorem C6_tie_first_occurrence_witness :
    print_summary (some [⟨2015, 0, 0, 0, 0, 0, 100, 0⟩, ⟨2016, 0, 0, 0, 0, 0, 110, 0⟩]) =
        Except.ok ⟨2015, 2016, 105, 110, 2016, 100, 2015, 10, 10, 2016⟩ ∧
    (∃ kmax kmin kg,
      idxmax ([⟨2015, 0, 0, 0, 0, 0, 100, 0⟩,
          (⟨2016, 0, 0, 0, 0, 0, 110, 0⟩ : PeriodRecord)].map PeriodRecord.gdp) = some kmax ∧
      idxmin ([⟨2015, 0, 0, 0, 0, 0, 100, 0⟩,
          (⟨2016, 0, 0, 0, 0, 0, 110, 0⟩ : PeriodRecord)].map PeriodRecord.gdp) = some kmin ∧
      idxmax (gtailOf ([⟨2015, 0, 0, 0, 0, 0, 100, 0⟩,
          (⟨2016, 0, 0, 0, 0, 0, 110, 0⟩ : PeriodRecord)].map PeriodRecord.gdp)) = some kg ∧
      (⟨2015, 2016, 105, 110, 2016, 100, 2015, 10, 10, 2016⟩ : Summary).max_year =
        ([⟨2015, 0, 0, 0, 0, 0, 100, 0⟩,
          (⟨2016, 0, 0, 0, 0, 0, 110, 0⟩ : PeriodRecord)].map PeriodRecord.year).getD kmax 0 ∧
      (⟨2015, 2016, 105, 110, 2016, 100, 2015, 10, 10, 2016⟩ : Summary).min_year =
        ([⟨2015, 0, 0, 0, 0, 0, 100, 0⟩,
          (⟨2016, 0, 0, 0, 0, 0, 110, 0⟩ : PeriodRecord)].map PeriodRecord.year).getD kmin 0 ∧
      (⟨2015, 2016, 105, 110, 2016, 100, 2015, 10, 10, 2016⟩ : Summary).max_growth_year =
        ([⟨2015, 0, 0, 0, 0, 0, 100, 0⟩,
          (⟨2016, 0, 0, 0, 0, 0, 110, 0⟩ : PeriodRecord)].map PeriodRecord.year).getD
            (kg + 1) 0 ∧
      (∀ j, j < ([⟨2015, 0, 0, 0, 0, 0, 100, 0⟩,
          (⟨2016, 0, 0, 0, 0, 0, 110, 0⟩ : PeriodRecord)].map PeriodRecord.gdp).length →
        ([⟨2015, 0, 0, 0, 0, 0, 100, 0⟩,
          (⟨2016, 0, 0, 0, 0, 0, 110, 0⟩ : PeriodRecord)].map PeriodRecord.gdp).getD j 0 ≤
          ([⟨2015, 0, 0, 0, 0, 0, 100, 0⟩,
            (⟨2016, 0, 0, 0, 0, 0, 110, 0⟩ : PeriodRecord)].map PeriodRecord.gdp).getD
              kmax 0) ∧
      (∀ j, j < kmax →
        ([⟨2015, 0, 0, 0, 0, 0, 100, 0⟩,
          (⟨2016, 0, 0, 0, 0, 0, 110, 0⟩ : PeriodRecord)].map PeriodRecord.gdp).getD j 0 <
          ([⟨2015, 0, 0, 0, 0, 0, 100, 0⟩,
            (⟨2016, 0, 0, 0, 0, 0, 110, 0⟩ : PeriodRecord)].map PeriodRecord.gdp).getD
              kmax 0) ∧
      (∀ j, j < ([⟨2015, 0, 0, 0, 0, 0, 100, 0⟩,
          (⟨2016, 0, 0, 0, 0, 0, 110, 0⟩ : PeriodRecord)].map PeriodRecord.gdp).length →
        ([⟨2015, 0, 0, 0, 0, 0, 100, 0⟩,
          (⟨2016, 0, 0, 0, 0, 0, 110, 0⟩ : PeriodRecord)].map PeriodRecord.gdp).getD kmin 0 ≤
          ([⟨2015, 0, 0, 0, 0, 0, 100, 0⟩,
            (⟨2016, 0, 0, 0, 0, 0, 110, 0⟩ : PeriodRecord)].map PeriodRecord.gdp).getD j 0) ∧
      (∀ j, j < kmin →
        ([⟨2015, 0, 0, 0, 0, 0, 100, 0⟩,
          (⟨2016, 0, 0, 0, 0, 0, 110, 0⟩ : PeriodRecord)].map PeriodRecord.gdp).getD kmin 0 <
          ([⟨2015, 0, 0, 0, 0, 0, 100, 0⟩,
            (⟨2016, 0, 0, 0, 0, 0, 110, 0⟩ : PeriodRecord)].map PeriodRecord.gdp).getD j 0) ∧
      (∀ j, j < (gtailOf ([⟨2015, 0, 0, 0, 0, 0, 100, 0⟩,
          (⟨2016, 0, 0, 0, 0, 0, 110, 0⟩ : PeriodRecord)].map PeriodRecord.gdp)).length →
        (gtailOf ([⟨2015, 0, 0, 0, 0, 0, 100, 0⟩,
          (⟨2016, 0, 0, 0, 0, 0, 110, 0⟩ : PeriodRecord)].map PeriodRecord.gdp)).getD j 0 ≤
          (gtailOf ([⟨2015, 0, 0, 0, 0, 0, 100, 0⟩,
            (⟨2016, 0, 0, 0, 0, 0, 110, 0⟩ : PeriodRecord)].map PeriodRecord.gdp)).getD
              kg 0) ∧
      (∀ j, j < kg →
        (gtailOf ([⟨2015, 0, 0, 0, 0, 0, 100, 0⟩,
          (⟨2016, 0, 0, 0, 0, 0, 110, 0⟩ : PeriodRecord)].map PeriodRecord.gdp)).getD j 0 <
          (gtailOf ([⟨2015, 0, 0, 0, 0, 0, 100, 0⟩,
            (⟨2016, 0, 0, 0, 0, 0, 110, 0⟩ : PeriodRecord)].map PeriodRecord.gdp)).getD
              kg 0)) :=
  have hok : print_summary (some [⟨2015, 0, 0, 0, 0, 0, 100, 0⟩,
      ⟨2016, 0, 0, 0, 0, 0, 110, 0⟩]) =
      Except.ok ⟨2015, 2016, 105, 110, 2016, 100, 2015, 10, 10, 2016⟩ := by
    norm_num [print_summary, mkSummary, idxmax, idxmin, argmax, argmin, gtailOf, growthRate,
      pct_change, seriesMean, seriesMax, seriesMin, List.range_succ]
  ⟨hok, C6_tie_first_occurrence _ _ hok⟩

/-- C7: `calculate_gdp` is pure: on every prior object state it leaves the
stored state (the data table and cached GDP values) unchanged and only
returns the four-term sum. -/
theorem C7_calculate_gdp_pure (s : GDPModelState) (c i g x m : Rat) :
    (calculate_gdp_method s c i g x m).1 = s ∧
    (calculate_gdp_method s c i g x m).2 = c + i + g + (x - m) :=
  ⟨rfl, rfl⟩

/-- C8: a constant GDP series with the same nonzero value in every period has
growth rate 0 percent at every period after the first. -/
theorem C8_constant_series_zero_growth (v : Rat) (hv : v ≠ 0) (n i : Nat)
    (h1 : 1 ≤ i) (h2 : i < n) :
    (growthRate (List.replicate n v)).getD i none = some 0 := by
  have hlen : (List.replicate n v).length = n := List.length_replicate n v
  rw [growthRate_getD _ (by omega) (by omega)]
  have ha : (List.replicate n v).getD i 0 = v := by
    rw [List.getD_eq_getElem?_getD, List.getElem?_replicate]
    simp [h2]
  have hb : (List.replicate n v).getD (i - 1) 0 = v := by
    rw [List.getD_eq_getElem?_getD, List.getElem?_replicate]
    have hi1 : i - 1 < n := by omega
    simp [hi1]
  rw [ha, hb, div_self hv]
  norm_num

/-- Witness for C8 on the constant series `[5, 5, 5]` at period 1. -/
theorem C8_constant_series_zero_growth_witness :
    ((5 : Rat) ≠ 0 ∧ 1 ≤ 1 ∧ 1 < 3) ∧
    (growthRate (List.replicate 3 (5 : Rat))).getD 1 none = some 0 :=
  ⟨⟨by norm_num, le_refl 1, by norm_num⟩,
    C8_constant_series_zero_growth 5 (by norm_num) 3 1 (le_refl 1) (by norm_num)⟩

/-- C9: `generate_sample_data` reseeds the generator to the fixed seed-42
state before generating, so the produced table is independent of the prior
object state and generator state — two calls with the same arguments produce
identical tables — and the Year column is the consecutive run
`start_year, start_year + 1, ...`. -/
theorem C9_generation_deterministic (mt42 : Nat → Rat) (s1 s2 : GDPModelState)
    (rng1 rng2 : NpRandomState) (years : Nat) (start_year : Int) :
    (generate_sample_data_method mt42 s1 rng1 years start_year).2.2 =
        (generate_sample_data_method mt42 s2 rng2 years start_year).2.2 ∧
    (generate_sample_data_method mt42 s1 rng1 years start_year).1.data =
        some (generate_sample_data mt42 years start_year) ∧
    ∀ i, i < years →
      ((generate_sample_data_method mt42 s1 rng1 years start_year).2.2.getD i
        default).year = start_year + (i : Int) := by
  refine ⟨rfl, rfl, ?_⟩
  intro i hi
  show ((generate_sample_data mt42 years start_year).getD i default).year = _
  unfold generate_sample_data
  rw [getD_range_map _ _ hi]

/-- Witness for C9 with the zero stream, three years from 2015, at period 1. -/
theorem C9_generation_deterministic_witness :
    (1 < 3) ∧
    ((generate_sample_data_method (fun _ => 0) ⟨none, none⟩ ⟨fun _ => 1, 7⟩ 3 2015).2.2.getD 1
      default).year = 2015 + (1 : Int) :=
  ⟨by norm_num,
    (C9_generation_deterministic (fun _ => 0) ⟨none, none⟩ ⟨none, none⟩ ⟨fun _ => 1, 7⟩
      ⟨fun _ => 2, 9⟩ 3 2015).2.2 1 (by norm_num)⟩

/-- C10: every consumer — the four plotting methods and the summary printer —
errors when invoked before the table is populated, and in that case leaves the
object state unchanged and writes no output file. -/
theorem C10_consumers_guard_no_data (s : GDPModelState) (p1 p2 p3 p4 : String)
    (h : s.data = none) :
    plot_gdp_trend s p1 = ⟨some noDataMsg, s, []⟩ ∧
    plot_gdp_components s p2 = ⟨some noDataMsg, s, []⟩ ∧
    plot_growth_rate s p3 = ⟨some noDataMsg, s, []⟩ ∧
    plot_all_components_trends s p4 = ⟨some noDataMsg, s, []⟩ ∧
    print_summary_method s = (some noDataMsg, s, none) := by
  refine ⟨?_, ?_, ?_, ?_, ?_⟩ <;>
    simp [plot_gdp_trend, plot_gdp_components, plot_growth_rate, plot_all_components_trends,
      print_summary_method, print_summary, h]

/-- Witness for C10 on the freshly initialised object state. -/
theorem C10_consumers_guard_no_data_witness :
    (⟨none, none⟩ : GDPModelState).data = none ∧
    (plot_gdp_trend ⟨none, none⟩ "gdp_trend.png" = ⟨some noDataMsg, ⟨none, none⟩, []⟩ ∧
      plot_gdp_components ⟨none, none⟩ "gdp_components.png" =
        ⟨some noDataMsg, ⟨none, none⟩, []⟩ ∧
      plot_growth_rate ⟨none, none⟩ "gdp_growth_rate.png" =
        ⟨some noDataMsg, ⟨none, none⟩, []⟩ ∧
      plot_all_components_trends ⟨none, none⟩ "all_components_trends.png" =
        ⟨some noDataMsg, ⟨none, none⟩, []⟩ ∧
      print_summary_method ⟨none, none⟩ = (some noDataMsg, ⟨none, none⟩, none)) :=
  ⟨rfl, C10_consumers_guard_no_data ⟨none, none⟩ "gdp_trend.png" "gdp_components.png"
    "gdp_growth_rate.png" "all_components_trends.png" rfl⟩

end GDPModel
